import Mathlib

/-!
Verification of `om_performance_monitor/monitors.py` (class `PerformanceMonitor`).

Timestamps come from `time.perf_counter()`; we model them as rationals (ℚ),
which support exact subtraction, and pass the clock reading `now` explicitly
to the operations that read the clock.  The saved-blocks `dict` is modelled
as an association list with Python-dict update semantics (replace in place
when the key is present, append otherwise).  The logging sink
(`logger : Optional[Callable[[str], None]]`) is modelled by a `Bool`
recording whether a sink is configured; `log_time` returns the line that
would be passed to the sink together with the (unchanged) monitor state.
Fallible methods return `Except PMError`.
-/

/-- A saved measurement: the value stored under a name in `timer_blocks`
(`{"start_time": ..., "end_time": ..., "elapsed": ...}` in the source). -/
structure SavedBlock where
  start_time : ℚ
  end_time : ℚ
  elapsed : ℚ
deriving DecidableEq

/-- Modelled from the spec: the module `exceptions` (only imported by
`monitors.py`, its source is not part of the repository) provides two
distinct exception types, `TimerError` and `SaveError`; per §7 of the spec
the four failure kinds carry only a message.  We model the two types as the
two constructors of one inductive of errors. -/
inductive PMError where
  | TimerError : String → PMError
  | SaveError : String → PMError
deriving DecidableEq

/-- Message raised by `end` when `start_time` is `None`. -/
def timerNotStartedMsg : String :=
  "Timer was not started. Call Timer.start() to begin the timer\n"

/-- Message raised by `log_time` when the block name is not in `timer_blocks`. -/
def noSavedBlockMsg : String :=
  "No saved timer blocks. Call Timer.save_block() to save a timer block or start/end a timer and save it"

/-- Message raised by `log_time` when `logger` is `None`. -/
def noLoggerMsg : String :=
  "No logger configured with the timer"

/-- Message raised by `save_block` on failure.  In the source the message
embeds the text of the wrapped Python exception
(`f"Error saving timer block. Error: \x7be\x7d\n"`); the claims only depend on the
error's type, so we keep the fixed leading part. -/
def saveErrMsg : String :=
  "Error saving timer block. Error: "

/-- Lookup in a Python dict modelled as an association list
(`self.timer_blocks[block_name]`). -/
def dictLookup (k : String) : List (String × SavedBlock) → Option SavedBlock
  | [] => none
  | (k', v) :: rest => if k' = k then some v else dictLookup k rest

/-- `dict.update({k: v})`: replace the value in place when the key is
present, append the pair otherwise. -/
def dictInsert (k : String) (v : SavedBlock) : List (String × SavedBlock) → List (String × SavedBlock)
  | [] => [(k, v)]
  | (k', v') :: rest =>
      if k' = k then (k, v) :: rest else (k', v') :: dictInsert k v rest

/-- The state of a `PerformanceMonitor` dataclass instance.  `logger` is
`true` iff a sink callback is configured (the Python default is `print`,
i.e. configured). -/
structure PerformanceMonitor where
  start_time : Option ℚ
  end_time : Option ℚ
  timer_blocks : List (String × SavedBlock)
  logger : Bool
deriving DecidableEq

/-- `PerformanceMonitor.start`: records the current timestamp into
`start_time`, unconditionally. -/
def PerformanceMonitor.start (pm : PerformanceMonitor) (now : ℚ) : PerformanceMonitor :=
  { pm with start_time := some now }

/-- `PerformanceMonitor.end`: raises `TimerError` when `start_time` is
`None`, otherwise records the current timestamp into `end_time`. -/
def PerformanceMonitor.end_ (pm : PerformanceMonitor) (now : ℚ) : Except PMError PerformanceMonitor :=
  match pm.start_time with
  | none => .error (.TimerError timerNotStartedMsg)
  | some _ => .ok { pm with end_time := some now }

/-- `PerformanceMonitor.reset`: clears `start_time` and `end_time`; empties
`timer_blocks` when `clear_blocks` is `true` (the Python default is `False`). -/
def PerformanceMonitor.reset (pm : PerformanceMonitor) (clear_blocks : Bool) : PerformanceMonitor :=
  let pm1 := { pm with start_time := none, end_time := none }
  if clear_blocks then { pm1 with timer_blocks := [] } else pm1

/-- `PerformanceMonitor.save_block`: computes
`float(end_time) - float(start_time)` and stores
`{start_time, end_time, elapsed}` under `block_name`; any exception (in the
model: a missing timestamp, `float(None)`) is wrapped into `SaveError`. -/
def PerformanceMonitor.save_block (pm : PerformanceMonitor) (block_name : String) :
    Except PMError PerformanceMonitor :=
  match pm.end_time, pm.start_time with
  | some e, some s =>
      .ok { pm with timer_blocks := dictInsert block_name ⟨s, e, e - s⟩ pm.timer_blocks }
  | _, _ => .error (.SaveError saveErrMsg)

/-- The f-string built by `log_time` and passed to the sink. -/
def logLine (block_name : String) (tb : SavedBlock) : String :=
  block_name ++ " timer | start time: " ++ toString tb.start_time ++
    " | end time: " ++ toString tb.end_time ++
    " | elapsed: " ++ toString tb.elapsed

/-- `PerformanceMonitor.log_time`: looks up `block_name` in `timer_blocks`
(raising `TimerError` with `noSavedBlockMsg` on a miss), then raises
`TimerError` with `noLoggerMsg` when no sink is configured, and otherwise
invokes the sink once with the formatted line.  The returned pair is the
(unchanged) state together with the line handed to the sink. -/
def PerformanceMonitor.log_time (pm : PerformanceMonitor) (block_name : String) :
    Except PMError (PerformanceMonitor × String) :=
  match dictLookup block_name pm.timer_blocks with
  | none => .error (.TimerError noSavedBlockMsg)
  | some tb =>
      if pm.logger then .ok (pm, logLine block_name tb)
      else .error (.TimerError noLoggerMsg)

/-- `PerformanceMonitor.__exit__`: runs `end()`, then
`save_block("ctx_manager")`, then `log_time("ctx_manager")`; the first
failure propagates. -/
def PerformanceMonitor.exit_ (pm : PerformanceMonitor) (now : ℚ) :
    Except PMError (PerformanceMonitor × String) :=
  match pm.end_ now with
  | .error e => .error e
  | .ok pm1 =>
      match pm1.save_block "ctx_manager" with
      | .error e => .error e
      | .ok pm2 => pm2.log_time "ctx_manager"

/-- Outcome of running a `with PerformanceMonitor(...)` block: normal
completion, propagation of the body's own error (after the exit hook ran),
or an error raised by the exit hook itself. -/
inductive WithResult (ε : Type) where
  | ok : PerformanceMonitor → String → WithResult ε
  | bodyErr : ε → PerformanceMonitor → String → WithResult ε
  | exitErr : PMError → WithResult ε
deriving DecidableEq

/-- Python `with` semantics around the monitor: `__enter__` calls `start`,
the body either completes or raises `bodyErr`, `__exit__` runs in both
cases; an exception raised by `__exit__` replaces the body's, and since
`__exit__` returns `None` (falsy) the body's error is never suppressed. -/
def withMonitor {ε : Type} (pm : PerformanceMonitor) (tStart tEnd : ℚ)
    (bodyErr : Option ε) : WithResult ε :=
  let pm1 := pm.start tStart
  match pm1.exit_ tEnd with
  | .error e => .exitErr e
  | .ok (pm2, line) =>
      match bodyErr with
      | some e => .bodyErr e pm2 line
      | none => .ok pm2 line

/-! ### Lemmas about the dict model -/

theorem dictLookup_dictInsert_self (k : String) (v : SavedBlock)
    (l : List (String × SavedBlock)) : dictLookup k (dictInsert k v l) = some v := by
  induction l with
  | nil => simp [dictInsert, dictLookup]
  | cons hd tl ih =>
      obtain ⟨k', v'⟩ := hd
      by_cases h : k' = k <;> simp [dictInsert, dictLookup, h, ih]

theorem dictLookup_dictInsert_ne (k k' : String) (v : SavedBlock)
    (l : List (String × SavedBlock)) (h : k' ≠ k) :
    dictLookup k' (dictInsert k v l) = dictLookup k' l := by
  induction l with
  | nil => simp [dictInsert, dictLookup, Ne.symm h]
  | cons hd tl ih =>
      obtain ⟨k0, v0⟩ := hd
      by_cases h0 : k0 = k
      · subst h0
        simp [dictInsert, dictLookup, Ne.symm h]
      · by_cases h1 : k0 = k' <;> simp [dictInsert, dictLookup, h0, h1, h, ih]

theorem length_dictInsert_of_mem (k : String) (v tb : SavedBlock)
    (l : List (String × SavedBlock)) (h : dictLookup k l = some tb) :
    (dictInsert k v l).length = l.length := by
  induction l with
  | nil => simp [dictLookup] at h
  | cons hd tl ih =>
      obtain ⟨k0, v0⟩ := hd
      by_cases h0 : k0 = k
      · simp [dictInsert, h0]
      · simp [dictLookup, h0] at h
        simp [dictInsert, h0, ih h]

/-! ### Concrete states used in witnesses and counterexamples -/

/-- A monitor with both timestamps set (end before start, so the elapsed
value is negative), one saved block under `"x"`, and a sink configured. -/
def pmBoth : PerformanceMonitor := ⟨some 5, some 2, [("x", ⟨0, 1, 1⟩)], true⟩

/-- A freshly constructed monitor: no timestamps, no blocks, default sink. -/
def pmIdle : PerformanceMonitor := ⟨none, none, [], true⟩

/-- A monitor with a block saved under `"x"` but no sink configured. -/
def pmNoSinkSaved : PerformanceMonitor := ⟨none, none, [("x", ⟨0, 1, 1⟩)], false⟩

/-- A monitor with no blocks and no sink configured. -/
def pmNoSinkEmpty : PerformanceMonitor := ⟨none, none, [], false⟩

/-! ### Claim theorems -/

/-- C1: when `start_time` and `end_time` are both set, `save_block name`
succeeds and inserts or overwrites the entry for `name` with exactly
`{start_time, end_time, elapsed = end_time - start_time}` (stored as-is,
even when negative); every other key is untouched, the rest of the state is
unchanged, and re-saving an existing name leaves the mapping's size
unchanged. -/
theorem save_block_saves_exact_elapsed (pm : PerformanceMonitor) (s e : ℚ) (name : String)
    (hs : pm.start_time = some s) (he : pm.end_time = some e) :
    ∃ pm', pm.save_block name = .ok pm' ∧
      dictLookup name pm'.timer_blocks = some ⟨s, e, e - s⟩ ∧
      (∀ k, k ≠ name → dictLookup k pm'.timer_blocks = dictLookup k pm.timer_blocks) ∧
      pm'.start_time = pm.start_time ∧ pm'.end_time = pm.end_time ∧
      pm'.logger = pm.logger ∧
      (∀ tb, dictLookup name pm.timer_blocks = some tb →
        pm'.timer_blocks.length = pm.timer_blocks.length) := by
  refine ⟨{ pm with timer_blocks := dictInsert name ⟨s, e, e - s⟩ pm.timer_blocks },
    ?_, dictLookup_dictInsert_self name ⟨s, e, e - s⟩ pm.timer_blocks,
    fun k hk => dictLookup_dictInsert_ne name k ⟨s, e, e - s⟩ pm.timer_blocks hk,
    rfl, rfl, rfl,
    fun tb htb => length_dictInsert_of_mem name ⟨s, e, e - s⟩ tb pm.timer_blocks htb⟩
  simp [PerformanceMonitor.save_block, hs, he]

theorem save_block_saves_exact_elapsed_witness :
    pmBoth.start_time = some 5 ∧ pmBoth.end_time = some 2 ∧
    (∃ pm', pmBoth.save_block "x" = .ok pm' ∧
      dictLookup "x" pm'.timer_blocks = some ⟨5, 2, 2 - 5⟩ ∧
      (∀ k, k ≠ "x" → dictLookup k pm'.timer_blocks = dictLookup k pmBoth.timer_blocks) ∧
      pm'.start_time = pmBoth.start_time ∧ pm'.end_time = pmBoth.end_time ∧
      pm'.logger = pmBoth.logger ∧
      (∀ tb, dictLookup "x" pmBoth.timer_blocks = some tb →
        pm'.timer_blocks.length = pmBoth.timer_blocks.length)) :=
  ⟨rfl, rfl, save_block_saves_exact_elapsed pmBoth 5 2 "x" rfl rfl⟩

/-- C4: `end` fails with the `TimerNotStarted` `TimerError` when `start_time`
is absent (returning no new state, i.e. leaving the state unchanged), and
when `start_time` is set it succeeds, recording the timestamp into
`end_time` and changing nothing else. -/
theorem end_requires_start (pm : PerformanceMonitor) (now : ℚ) :
    (pm.start_time = none → pm.end_ now = .error (.TimerError timerNotStartedMsg)) ∧
    (∀ s, pm.start_time = some s →
      pm.end_ now = .ok { pm with end_time := some now }) := by
  constructor
  · intro h; simp [PerformanceMonitor.end_, h]
  · intro s h; simp [PerformanceMonitor.end_, h]

theorem end_requires_start_witness :
    (pmIdle.start_time = none ∧
      pmIdle.end_ 7 = .error (.TimerError timerNotStartedMsg)) ∧
    (pmBoth.start_time = some 5 ∧
      pmBoth.end_ 7 = .ok { pmBoth with end_time := some 7 }) :=
  ⟨⟨rfl, (end_requires_start pmIdle 7).1 rfl⟩,
   ⟨rfl, (end_requires_start pmBoth 7).2 5 rfl⟩⟩

/-- C5: `save_block` fails with `SaveError` whenever `start_time` or
`end_time` is absent; the failing call returns no new state, so the
saved-blocks mapping and the rest of the state are unchanged. -/
theorem save_block_requires_both (pm : PerformanceMonitor) (name : String)
    (h : pm.start_time = none ∨ pm.end_time = none) :
    pm.save_block name = .error (.SaveError saveErrMsg) := by
  rcases h with h | h
  · cases he : pm.end_time <;> simp [PerformanceMonitor.save_block, h, he]
  · simp [PerformanceMonitor.save_block, h]

theorem save_block_requires_both_witness :
    (pmIdle.start_time = none ∨ pmIdle.end_time = none) ∧
    pmIdle.save_block "x" = .error (.SaveError saveErrMsg) :=
  ⟨Or.inl rfl, save_block_requires_both pmIdle "x" (Or.inl rfl)⟩

/-- C6: `reset` always succeeds (it is a total function), sets `start_time`
and `end_time` to absent, empties `timer_blocks` exactly when
`clear_blocks` is `true`, and touches nothing else (the logger is
preserved). -/
theorem reset_clears_times_and_blocks_iff_flag (pm : PerformanceMonitor) (b : Bool) :
    (pm.reset b).start_time = none ∧ (pm.reset b).end_time = none ∧
    (pm.reset b).timer_blocks = (if b then [] else pm.timer_blocks) ∧
    (pm.reset b).logger = pm.logger := by
  cases b <;> simp [PerformanceMonitor.reset]

/-- C2 counterexample: with no sink configured and nothing saved,
`log_time "x"` fails with the no-saved-block `TimerError`, not with the
no-sink one — the saved-block lookup is checked before the sink. -/
theorem log_time_no_sink_counterexample :
    pmNoSinkEmpty.logger = false ∧
    pmNoSinkEmpty.log_time "x" = .error (.TimerError noSavedBlockMsg) ∧
    pmNoSinkEmpty.log_time "x" ≠ .error (.TimerError noLoggerMsg) := by
  refine ⟨rfl, rfl, ?_⟩
  simp [pmNoSinkEmpty, PerformanceMonitor.log_time, dictLookup,
    noSavedBlockMsg, noLoggerMsg]

/-- C2 (amended): for every name that IS saved in the blocks mapping,
`log_time name` on a monitor whose sink is absent fails with the
`NoSinkConfigured` `TimerError`; for an unsaved name the no-saved-block
error is raised first instead. -/
theorem log_time_no_sink (pm : PerformanceMonitor) (name : String) (tb : SavedBlock)
    (hb : dictLookup name pm.timer_blocks = some tb) (hl : pm.logger = false) :
    pm.log_time name = .error (.TimerError noLoggerMsg) := by
  simp [PerformanceMonitor.log_time, hb, hl]

theorem log_time_no_sink_witness :
    dictLookup "x" pmNoSinkSaved.timer_blocks = some ⟨0, 1, 1⟩ ∧
    pmNoSinkSaved.logger = false ∧
    pmNoSinkSaved.log_time "x" = .error (.TimerError noLoggerMsg) :=
  ⟨rfl, rfl, log_time_no_sink pmNoSinkSaved "x" ⟨0, 1, 1⟩ rfl rfl⟩

/-- C7: for every name saved in the blocks mapping, with a sink configured,
`log_time` succeeds, hands the sink exactly one line containing in order
the block name, the start timestamp, the end timestamp and the elapsed
duration, each preceded by its label and separated by the `" | "`
delimiter, and returns the monitor state unchanged (no mutation). -/
theorem log_time_emits_line_no_mutation (pm : PerformanceMonitor) (name : String)
    (tb : SavedBlock) (hb : dictLookup name pm.timer_blocks = some tb)
    (hl : pm.logger = true) :
    pm.log_time name = .ok (pm,
      name ++ " timer | start time: " ++ toString tb.start_time ++
        " | end time: " ++ toString tb.end_time ++
        " | elapsed: " ++ toString tb.elapsed) := by
  simp [PerformanceMonitor.log_time, hb, hl, logLine]

theorem log_time_emits_line_no_mutation_witness :
    dictLookup "x" pmBoth.timer_blocks = some ⟨0, 1, 1⟩ ∧
    pmBoth.logger = true ∧
    pmBoth.log_time "x" = .ok (pmBoth,
      "x" ++ " timer | start time: " ++ toString (0 : ℚ) ++
        " | end time: " ++ toString (1 : ℚ) ++
        " | elapsed: " ++ toString (1 : ℚ)) :=
  ⟨rfl, rfl, log_time_emits_line_no_mutation pmBoth "x" ⟨0, 1, 1⟩ rfl rfl⟩

/-- C8: `start` mutates only `start_time` (the end timestamp, the blocks
mapping and the logger are untouched), so after
`start t1; end t2; start t3; save name` the save succeeds and stores the
stale end timestamp `t2` paired with the new start timestamp `t3`, with
elapsed `t2 - t3` (negative whenever `t3 > t2`), rather than failing. -/
theorem start_frame_stale_end (pm : PerformanceMonitor) (t1 t2 t3 : ℚ) (name : String) :
    ((pm.start t1).end_time = pm.end_time ∧
     (pm.start t1).timer_blocks = pm.timer_blocks ∧
     (pm.start t1).logger = pm.logger ∧
     (pm.start t1).start_time = some t1) ∧
    ∃ pm2 pm4, (pm.start t1).end_ t2 = .ok pm2 ∧
      (pm2.start t3).save_block name = .ok pm4 ∧
      dictLookup name pm4.timer_blocks = some ⟨t3, t2, t2 - t3⟩ :=
  ⟨⟨rfl, rfl, rfl, rfl⟩,
   ⟨_, _, rfl, rfl, dictLookup_dictInsert_self name ⟨t3, t2, t2 - t3⟩ _⟩⟩

/-- Helper: after `__enter__` has called `start`, the `__exit__` sequence
`end; save_block "ctx_manager"; log_time "ctx_manager"` succeeds whenever a
sink is configured, recording the `"ctx_manager"` block and producing the
formatted line. -/
theorem exit_ok_of_logger (pm : PerformanceMonitor) (t1 t2 : ℚ) (hl : pm.logger = true) :
    (pm.start t1).exit_ t2 = .ok
      ({ pm with
         start_time := some t1
         end_time := some t2
         timer_blocks := dictInsert "ctx_manager" ⟨t1, t2, t2 - t1⟩ pm.timer_blocks },
       logLine "ctx_manager" ⟨t1, t2, t2 - t1⟩) := by
  simp [PerformanceMonitor.exit_, PerformanceMonitor.start, PerformanceMonitor.end_,
    PerformanceMonitor.save_block, PerformanceMonitor.log_time,
    dictLookup_dictInsert_self, hl]

/-- C3: on every exit of the `with` block — normal or via an error raised by
the body — `__exit__` runs `end()`, then `save_block("ctx_manager")`, then
`log_time("ctx_manager")`; when a sink is configured this whole sequence
succeeds (the `"ctx_manager"` block is recorded and the line emitted) and
the body's original error propagates unchanged, neither suppressed nor
replaced. -/
theorem with_monitor_exit_sequence {ε : Type} (pm : PerformanceMonitor) (t1 t2 : ℚ)
    (bodyErr : Option ε) (hl : pm.logger = true) :
    ∃ pm2, (pm.start t1).exit_ t2 = .ok (pm2, logLine "ctx_manager" ⟨t1, t2, t2 - t1⟩) ∧
      dictLookup "ctx_manager" pm2.timer_blocks = some ⟨t1, t2, t2 - t1⟩ ∧
      withMonitor pm t1 t2 bodyErr =
        (match bodyErr with
         | some e => .bodyErr e pm2 (logLine "ctx_manager" ⟨t1, t2, t2 - t1⟩)
         | none => .ok pm2 (logLine "ctx_manager" ⟨t1, t2, t2 - t1⟩)) := by
  refine ⟨{ pm with
      start_time := some t1
      end_time := some t2
      timer_blocks := dictInsert "ctx_manager" ⟨t1, t2, t2 - t1⟩ pm.timer_blocks },
    exit_ok_of_logger pm t1 t2 hl,
    dictLookup_dictInsert_self "ctx_manager" ⟨t1, t2, t2 - t1⟩ pm.timer_blocks, ?_⟩
  cases bodyErr <;> simp [withMonitor, exit_ok_of_logger pm t1 t2 hl]

theorem with_monitor_exit_sequence_witness :
    pmIdle.logger = true ∧
    ∃ pm2, (pmIdle.start 3).exit_ 10 = .ok (pm2, logLine "ctx_manager" ⟨3, 10, 10 - 3⟩) ∧
      dictLookup "ctx_manager" pm2.timer_blocks = some ⟨3, 10, 10 - 3⟩ ∧
      withMonitor pmIdle 3 10 (some "boom") =
        .bodyErr "boom" pm2 (logLine "ctx_manager" ⟨3, 10, 10 - 3⟩) :=
  ⟨rfl, with_monitor_exit_sequence pmIdle 3 10 (some "boom") rfl⟩

/-- C9: the three failures raised in `monitors.py` via `TimerError` — end
without start, log of an unsaved name, log with no sink — all carry the
same exception type, distinguishable only by their pairwise-distinct
message texts; only `save_block` raises the distinct type `SaveError`, and
no `TimerError` value equals a `SaveError` value. -/
theorem error_types_shared :
    pmIdle.end_ 1 = .error (.TimerError timerNotStartedMsg) ∧
    pmIdle.log_time "x" = .error (.TimerError noSavedBlockMsg) ∧
    pmNoSinkSaved.log_time "x" = .error (.TimerError noLoggerMsg) ∧
    pmIdle.save_block "x" = .error (.SaveError saveErrMsg) ∧
    timerNotStartedMsg ≠ noSavedBlockMsg ∧
    timerNotStartedMsg ≠ noLoggerMsg ∧
    noSavedBlockMsg ≠ noLoggerMsg ∧
    ∀ m m', PMError.TimerError m ≠ PMError.SaveError m' :=
  ⟨rfl, rfl, rfl, rfl, by decide, by decide, by decide,
   fun _ _ h => PMError.noConfusion h⟩

theorem error_types_shared_witness :
    PMError.TimerError timerNotStartedMsg ≠ PMError.SaveError saveErrMsg :=
  error_types_shared.2.2.2.2.2.2.2 timerNotStartedMsg saveErrMsg

/-- C10: `save_block` fails (with `SaveError`) exactly when a timestamp is
absent, independently of the name; in particular the empty string is an
accepted block name: with both timestamps set, `save_block ""` succeeds and
stores the block under the empty-string key. -/
theorem save_block_error_iff_missing (pm : PerformanceMonitor) (s e : ℚ)
    (hs : pm.start_time = some s) (he : pm.end_time = some e) :
    (∀ (q : PerformanceMonitor) (name : String),
      (∃ m, q.save_block name = .error (.SaveError m)) ↔
        (q.start_time = none ∨ q.end_time = none)) ∧
    ∃ pm0, pm.save_block "" = .ok pm0 ∧
      dictLookup "" pm0.timer_blocks = some ⟨s, e, e - s⟩ := by
  constructor
  · intro q name
    cases hqs : q.start_time <;> cases hqe : q.end_time <;>
      simp [PerformanceMonitor.save_block, hqs, hqe]
  · refine ⟨{ pm with timer_blocks := dictInsert "" ⟨s, e, e - s⟩ pm.timer_blocks },
      ?_, dictLookup_dictInsert_self "" ⟨s, e, e - s⟩ pm.timer_blocks⟩
    simp [PerformanceMonitor.save_block, hs, he]

theorem save_block_error_iff_missing_witness :
    pmBoth.start_time = some 5 ∧ pmBoth.end_time = some 2 ∧
    ((∀ (q : PerformanceMonitor) (name : String),
      (∃ m, q.save_block name = .error (.SaveError m)) ↔
        (q.start_time = none ∨ q.end_time = none)) ∧
    ∃ pm0, pmBoth.save_block "" = .ok pm0 ∧
      dictLookup "" pm0.timer_blocks = some ⟨5, 2, 2 - 5⟩) :=
  ⟨rfl, rfl, save_block_error_iff_missing pmBoth 5 2 rfl rfl⟩
